import Mathlib

/-!
Verification of the backup lifecycle orchestrator of `odoo-backup-service`
(`src/backup.rs`, `src/docker.rs`, `src/error.rs`, `src/config.rs`).

The Rust code shells out to `docker` and touches the host filesystem; the
embedding makes those effect boundaries explicit:

* every external command invocation is summarised by a `CmdOutcome` (either
  the process could not be spawned at all, or it ran and reported an exit
  status together with its captured stdout/stderr), supplied by an
  environment record;
* the host backup directory is a value (`HostDir`): a presence flag plus a
  flat list of directory entries, each with a name, a file/non-file flag and
  a modification time in seconds;
* clock reads (`chrono::Utc::now()`) are a `UtcTime` field of the
  environment; `chrono`'s `%Y%m%d_%H%M%S` formatter is modelled by
  `formatTimestamp`;
* `log::info!`/`log::warn!`/`log::error!` lines are discarded, except that
  `backup_all_databases` additionally returns the list of failure messages
  it formats and logs (the Rust function keeps them in a local `errors`
  vector and emits them through the logger only).

The model filesystem and the in-model string operations are total: the
`map_err` branches of the source that convert `std::io` failures of
`read_dir`/`metadata`/`remove_file` into `BackupError::FileSystem` have no
counterpart because the model filesystem cannot fail mid-enumeration.
-/

namespace OdooBackup

/-! ## String preliminaries

Rust `str::contains(pat)` is substring containment and `Vec<String>::sort()`
sorts by byte-lexicographic order of the UTF-8 encoding, which coincides
with lexicographic order on code points.  Both are implemented here over
`List Char` so that they are executable and kernel-reducible. -/

/-- Boolean test that `p` starts the list `s` (models `str` starts-with,
used as the building block of substring containment). -/
def leadsWith : List Char → List Char → Bool
  | [], _ => true
  | _ :: _, [] => false
  | p :: ps, s :: ss => p == s && leadsWith ps ss

/-- Boolean test that `p` occurs contiguously somewhere inside `s`. -/
def subOccurs (p : List Char) : List Char → Bool
  | [] => p.isEmpty
  | c :: rest => leadsWith p (c :: rest) || subOccurs p rest

/-- Rust `haystack.contains(pattern)` for string patterns: substring
containment. -/
def strContains (s pat : String) : Bool := subOccurs pat.toList s.toList

/-- Lexicographic comparison of character lists, the order Rust
`Vec<String>::sort()` sorts by. -/
def chrListLe : List Char → List Char → Bool
  | [], _ => true
  | _ :: _, [] => false
  | a :: as, b :: bs => if a < b then true else if b < a then false else chrListLe as bs

/-- Lexicographic `≤` on strings (Rust `Ord` for `String`). -/
def strLe (a b : String) : Bool := chrListLe a.toList b.toList

theorem leadsWith_iff (p s : List Char) : leadsWith p s = true ↔ p <+: s := by
  induction p generalizing s with
  | nil => simp [leadsWith]
  | cons x xs ih =>
    cases s with
    | nil => simp [leadsWith]
    | cons y ys =>
      simp only [leadsWith, Bool.and_eq_true, beq_iff_eq, List.cons_prefix_cons]
      exact and_congr Iff.rfl (ih ys)

theorem subOccurs_iff (p s : List Char) : subOccurs p s = true ↔ p <:+: s := by
  induction s with
  | nil => simp [subOccurs, List.isEmpty_iff, List.infix_nil]
  | cons c rest ih =>
    simp only [subOccurs, Bool.or_eq_true, leadsWith_iff, ih, List.infix_cons_iff]

theorem strContains_iff (s pat : String) :
    strContains s pat = true ↔ pat.toList <:+: s.toList := subOccurs_iff _ _

theorem chrListLe_trans :
    ∀ a b c : List Char, chrListLe a b = true → chrListLe b c = true → chrListLe a c = true
  | [], _, _, _, _ => rfl
  | _ :: _, [], _, h, _ => by simp [chrListLe] at h
  | _ :: _, _ :: _, [], _, h => by simp [chrListLe] at h
  | x :: xs, y :: ys, z :: zs, h1, h2 => by
    simp only [chrListLe] at h1 h2 ⊢
    rcases lt_trichotomy x y with hxy | hxy | hxy
    · rcases lt_trichotomy y z with hyz | hyz | hyz
      · rw [if_pos (lt_trans hxy hyz)]
      · subst hyz; rw [if_pos hxy]
      · rw [if_neg (lt_asymm hyz), if_pos hyz] at h2; exact absurd h2 (by simp)
    · subst hxy
      rcases lt_trichotomy x z with hxz | hxz | hxz
      · rw [if_pos hxz]
      · subst hxz
        rw [if_neg (lt_irrefl x), if_neg (lt_irrefl x)] at h1 h2 ⊢
        exact chrListLe_trans xs ys zs h1 h2
      · rw [if_neg (lt_asymm hxz), if_pos hxz] at h2; exact absurd h2 (by simp)
    · rw [if_neg (lt_asymm hxy), if_pos hxy] at h1; exact absurd h1 (by simp)

theorem chrListLe_total :
    ∀ a b : List Char, chrListLe a b = true ∨ chrListLe b a = true
  | [], _ => Or.inl rfl
  | _ :: _, [] => Or.inr rfl
  | x :: xs, y :: ys => by
    simp only [chrListLe]
    rcases lt_trichotomy x y with h | h | h
    · left; rw [if_pos h]
    · subst h
      simp only [if_neg (lt_irrefl x)]
      exact chrListLe_total xs ys
    · right; rw [if_pos h]

theorem strLe_trans (a b c : String) (h1 : strLe a b = true) (h2 : strLe b c = true) :
    strLe a c = true := chrListLe_trans _ _ _ h1 h2

theorem strLe_total (a b : String) : (strLe a b || strLe b a) = true := by
  rw [Bool.or_eq_true]
  exact chrListLe_total a.toList b.toList

/-! ## Data model (`src/config.rs`, `src/error.rs`) -/

/-- `DatabaseConfig` from `src/config.rs`: one backup target. -/
structure DatabaseConfig where
  name : String
  database_name : String
  url : String
  container_name : String
  master_password : String
  backup_format : String
  output_path : String
  retention_days : Nat
deriving Repr, DecidableEq

/-- `BackupError` from `src/error.rs` (message payloads only; the `Io`,
`Json` and `Http` variants wrap foreign error values in the source and are
represented by their rendered message). -/
inductive BackupError where
  | Config (msg : String)
  | Docker (msg : String)
  | Network (msg : String)
  | FileSystem (msg : String)
  | OdooApi (msg : String)
  | Io (msg : String)
  | Json (msg : String)
  | Http (msg : String)
  | Unknown (msg : String)
deriving Repr, DecidableEq

/-- The `Display` implementation derived by `thiserror` in `src/error.rs`
(`#[error("Docker error: {0}")]` etc.). -/
def BackupError.display : BackupError → String
  | .Config m => "Configuration error: " ++ m
  | .Docker m => "Docker error: " ++ m
  | .Network m => "Network error: " ++ m
  | .FileSystem m => "File system error: " ++ m
  | .OdooApi m => "Odoo API error: " ++ m
  | .Io m => "IO error: " ++ m
  | .Json m => "JSON parsing error: " ++ m
  | .Http m => "HTTP error: " ++ m
  | .Unknown m => "Unknown error: " ++ m

/-- Outcome of spawning one external process (`std::process::Command::output`):
either spawning itself failed (the `Err` of `.output()`), or the process ran
and reported an exit status plus captured stdout/stderr. -/
inductive CmdOutcome where
  | spawnErr (msg : String)
  | ran (success : Bool) (stdout stderr : String)
deriving Repr, DecidableEq

/-- A UTC clock reading, the components `chrono::Utc::now()` feeds into the
`%Y%m%d_%H%M%S` format string in `execute_backup`. -/
structure UtcTime where
  year : Nat
  month : Nat
  day : Nat
  hour : Nat
  minute : Nat
  second : Nat
deriving Repr, DecidableEq

/-- The decimal digit character for `n % 10`. -/
def digitChar (n : Nat) : Char := Char.ofNat (48 + n % 10)

/-- Two-digit zero-padded decimal rendering (chrono `%m`, `%d`, `%H`,
`%M`, `%S`; faithful for values below 100, which chrono guarantees for
calendar fields). -/
def pad2 (n : Nat) : String := String.mk [digitChar (n / 10), digitChar n]

/-- Four-digit zero-padded decimal rendering (chrono `%Y`; faithful for
years below 10000). -/
def pad4 (n : Nat) : String :=
  String.mk [digitChar (n / 1000), digitChar (n / 100), digitChar (n / 10), digitChar n]

/-- Model of `chrono`'s `format("%Y%m%d_%H%M%S")` on a UTC time. -/
def formatTimestamp (t : UtcTime) : String :=
  pad4 t.year ++ pad2 t.month ++ pad2 t.day ++ "_" ++ pad2 t.hour ++ pad2 t.minute ++ pad2 t.second

/-- The external world a single `backup_database` call interacts with
through Docker: the outcome of each `docker` invocation the call issues, in
program order, plus the clock reading taken when the artifact name is
built. -/
structure DockerEnv where
  /-- `docker ps --filter name=<container> --format {{.Names}}` -/
  ps : CmdOutcome
  /-- `docker exec <container> sh -c "mkdir -p <output_path>"` -/
  mkdirCmd : CmdOutcome
  /-- `docker exec <container> sh -c "curl ..."` -/
  curlCmd : CmdOutcome
  /-- `docker exec <container> sh -c "test -f <path>"` -/
  checkCmd : CmdOutcome
  /-- `docker cp <container>:<path> <hostPath>` -/
  cpCmd : CmdOutcome
  /-- `docker exec <container> rm -f <path>` -/
  rmCmd : CmdOutcome
  /-- clock reading for the artifact filename -/
  now : UtcTime
deriving Repr, DecidableEq

/-- The host-side environment of one `backup_database` call. -/
structure BackupEnv where
  /-- whether the host backup root already exists -/
  hostDirPresent : Bool
  /-- outcome of `fs::create_dir_all` when it is invoked: `none` on
  success, `some msg` on failure -/
  createDir : Option String
  docker : DockerEnv
deriving Repr, DecidableEq

/-- One host directory entry as seen by `fs::read_dir`: name, whether the
path is a regular file, and the filesystem modification time in seconds. -/
structure FileEntry where
  name : String
  isFile : Bool
  mtime : Int
deriving Repr, DecidableEq

/-- The host backup root: presence flag plus its (flat) entries. -/
structure HostDir where
  present : Bool
  entries : List FileEntry
deriving Repr, DecidableEq

/-! ## Container Runtime Gateway (`src/docker.rs`) -/

/-- Model of the external `docker ps --filter name=<query> --format
{{.Names}}` invocation: Docker's `name` filter keeps the running containers
whose name contains the query, and prints each kept name on its own
line. -/
def joinLines : List String → String
  | [] => ""
  | n :: rest => n ++ "\n" ++ joinLines rest

/-- Stdout of `docker ps --filter name=<query> --format {{.Names}}` when
the containers of `running` are up. -/
def dockerPsNamesOutput (running : List String) (query : String) : String :=
  joinLines (running.filter (fun n => strContains n query))

/-- `DockerManager::is_container_running` (`src/docker.rs:18-39`), with the
outcome of the `docker ps` invocation supplied by `ps`.  The source checks
`running_containers.contains(container_name)` on the whole captured
stdout. -/
def is_container_running (ps : CmdOutcome) (container_name : String) :
    Except BackupError Bool :=
  match ps with
  | .spawnErr e => .error (.Docker ("Failed to check container status: " ++ e))
  | .ran success stdout stderr =>
    if !success then .error (.Docker ("Docker command failed: " ++ stderr))
    else .ok (strContains stdout container_name)

/-- The `format!("backup_{}_{}.{}", config.database_name, timestamp,
config.backup_format)` expression of `execute_backup`
(`src/docker.rs:52-55`). -/
def backupFilename (config : DatabaseConfig) (timestamp : String) : String :=
  "backup_" ++ config.database_name ++ "_" ++ timestamp ++ "." ++ config.backup_format

/-- `DockerManager::execute_backup` (`src/docker.rs:41-121`): liveness
check, artifact name construction, remote `mkdir -p`, remote `curl` backup
trigger, remote `test -f` existence check; returns the container-side
artifact path. -/
def execute_backup (env : DockerEnv) (config : DatabaseConfig) :
    Except BackupError String :=
  match is_container_running env.ps config.container_name with
  | .error e => .error e
  | .ok running =>
    if !running then
      .error (.Docker ("Container '" ++ config.container_name ++ "' is not running"))
    else
      let timestamp := formatTimestamp env.now
      let backup_filename := backupFilename config timestamp
      let container_backup_path := config.output_path ++ "/" ++ backup_filename
      match env.mkdirCmd with
      | .spawnErr e => .error (.Docker ("Failed to create backup directory: " ++ e))
      | .ran mkOk _ mkErr =>
        if !mkOk then .error (.Docker ("Failed to create backup directory: " ++ mkErr))
        else
          match env.curlCmd with
          | .spawnErr e => .error (.Docker ("Failed to execute backup command: " ++ e))
          | .ran curlOk _ curlErr =>
            if !curlOk then .error (.Docker ("Backup command failed: " ++ curlErr))
            else
              match env.checkCmd with
              | .spawnErr e => .error (.Docker ("Failed to check backup file: " ++ e))
              | .ran chkOk _ _ =>
                if !chkOk then
                  .error (.Docker ("Backup file was not created: " ++ container_backup_path))
                else .ok container_backup_path

/-- Rust `str::split('/')`: splits at every occurrence of the character,
keeping empty segments; the result is never empty. -/
def splitOnChar (c : Char) : List Char → List (List Char)
  | [] => [[]]
  | x :: xs =>
    if x == c then [] :: splitOnChar c xs
    else
      match splitOnChar c xs with
      | [] => [[x]]
      | seg :: rest => (x :: seg) :: rest

/-- `container_path.split('/').next_back().unwrap_or("backup")`
(`src/docker.rs:132`): the last `/`-separated segment of the path. -/
def lastSegment (path : String) : String :=
  match (splitOnChar '/' path.toList).getLast? with
  | some seg => String.mk seg
  | none => "backup"

/-- `DockerManager::copy_backup_to_host` (`src/docker.rs:123-160`): derives
the host destination from the last path segment and issues `docker cp`
(outcome supplied by `cp`; the source also uses the config for the
container name inside the command). -/
def copy_backup_to_host (cp : CmdOutcome) (_config : DatabaseConfig)
    (container_path host_path : String) : Except BackupError String :=
  let host_backup_path := host_path ++ "/" ++ lastSegment container_path
  match cp with
  | .spawnErr e => .error (.Docker ("Failed to copy backup file: " ++ e))
  | .ran success _ stderr =>
    if !success then .error (.Docker ("Failed to copy backup: " ++ stderr))
    else .ok host_backup_path

/-- `DockerManager::cleanup_container_backup` (`src/docker.rs:162-182`):
issues `docker exec <container> rm -f <path>` (outcome supplied by `rm`;
the source uses the config for the container name).  A spawn failure of the
command is propagated through `map_err(..)?`; a non-success exit status is
only logged (`log::warn!`) and the function still returns `Ok(())`. -/
def cleanup_container_backup (rm : CmdOutcome) (_config : DatabaseConfig)
    (_container_path : String) : Except BackupError Unit :=
  match rm with
  | .spawnErr e => .error (.Docker ("Failed to cleanup backup file: " ++ e))
  | .ran _ _ _ => .ok ()

/-! ## Backup Executor, Batch Runner, Retention Sweeper, Catalog Lister
(`src/backup.rs`) -/

/-- `BackupManager::ensure_backup_directory` (`src/backup.rs:133-142`):
creates the host backup root when absent; `fs::create_dir_all` failure
becomes `BackupError::FileSystem`. -/
def ensure_backup_directory (env : BackupEnv) : Except BackupError Unit :=
  if !env.hostDirPresent then
    match env.createDir with
    | none => .ok ()
    | some m => .error (.FileSystem ("Failed to create backup directory: " ++ m))
  else .ok ()

/-- `BackupManager::backup_database` (`src/backup.rs:21-47`): ensure host
root, run the remote backup, copy the artifact to the host, clean up the
container-side copy; every step's error propagates through `?`. -/
def backup_database (env : BackupEnv) (host_backup_dir : String)
    (config : DatabaseConfig) : Except BackupError String :=
  match ensure_backup_directory env with
  | .error e => .error e
  | .ok _ =>
    match execute_backup env.docker config with
    | .error e => .error e
    | .ok container_backup_path =>
      match copy_backup_to_host env.docker.cpCmd config container_backup_path
          host_backup_dir with
      | .error e => .error e
      | .ok host_backup_path =>
        match cleanup_container_backup env.docker.rmCmd config container_backup_path with
        | .error e => .error e
        | .ok _ => .ok host_backup_path

/-- The loop body of `backup_all_databases` (`src/backup.rs:56-67`): per
target, a success is pushed onto `results` as `(config.name, backup_path)`
and a failure is formatted as `"Failed to backup <name>: <display>"` and
pushed onto `errors`.  Each target carries the external environment its own
`backup_database` call observes. -/
def backupAllLoop (host_backup_dir : String) :
    List (DatabaseConfig × BackupEnv) → List (String × String) × List String
  | [] => ([], [])
  | (config, env) :: rest =>
    let tail := backupAllLoop host_backup_dir rest
    match backup_database env host_backup_dir config with
    | .ok backup_path => ((config.name, backup_path) :: tail.1, tail.2)
    | .error e =>
      (tail.1, ("Failed to backup " ++ config.name ++ ": " ++ e.display) :: tail.2)

/-- `BackupManager::backup_all_databases` (`src/backup.rs:49-74`).  The
Rust function returns `Ok(results)` unconditionally; the collected failure
messages live in a local `errors` vector that is emitted through the
logger, and the model returns them as the second component so they are
observable. -/
def backup_all_databases (host_backup_dir : String)
    (targets : List (DatabaseConfig × BackupEnv)) :
    Except BackupError (List (String × String) × List String) :=
  .ok (backupAllLoop host_backup_dir targets)

/-- `Duration::days(n)` in seconds. -/
def secondsPerDay : Int := 86400

/-- The deletion condition of the sweep loop (`src/backup.rs:96-114`): the
entry is a regular file, its name contains the target's `database_name` as
a substring, and its modification time is strictly earlier than the
cutoff. -/
def shouldDelete (config : DatabaseConfig) (cutoff : Int) (e : FileEntry) : Bool :=
  e.isFile && strContains e.name config.database_name && decide (e.mtime < cutoff)

/-- The `for entry in entries` loop of `cleanup_old_backups`
(`src/backup.rs:90-123`): deletes every entry satisfying `shouldDelete`,
counting deletions; returns the count and the surviving entries. -/
def cleanupEntries (config : DatabaseConfig) (cutoff : Int) :
    List FileEntry → Nat × List FileEntry
  | [] => (0, [])
  | e :: rest =>
    let r := cleanupEntries config cutoff rest
    if shouldDelete config cutoff e then (r.1 + 1, r.2) else (r.1, e :: r.2)

/-- `BackupManager::cleanup_old_backups` (`src/backup.rs:76-131`): returns
0 immediately when the host root is absent; otherwise computes
`cutoff = now - retention_days` (as a duration) and sweeps the entries.
Returns the deletion count and the directory state afterwards. -/
def cleanup_old_backups (config : DatabaseConfig) (dir : HostDir) (now : Int) :
    Except BackupError (Nat × HostDir) :=
  if !dir.present then .ok (0, dir)
  else
    let cutoff := now - (config.retention_days : Int) * secondsPerDay
    let r := cleanupEntries config cutoff dir.entries
    .ok (r.1, { present := true, entries := r.2 })

/-- The per-entry selection of `list_backups` (`src/backup.rs:161-171`):
keep the filename of every regular file, restricted — when a filter is
given — to names containing the filter as a substring. -/
def keepEntry (database_name : Option String) (e : FileEntry) : Option String :=
  if e.isFile then
    match database_name with
    | some db_name => if strContains e.name db_name then some e.name else none
    | none => some e.name
  else none

/-- `BackupManager::list_backups` (`src/backup.rs:144-176`): empty list
when the host root is absent; otherwise the kept filenames, sorted
(`backups.sort()`, lexicographic ascending). -/
def list_backups (dir : HostDir) (database_name : Option String) :
    Except BackupError (List String) :=
  if !dir.present then .ok []
  else .ok ((dir.entries.filterMap (keepEntry database_name)).mergeSort strLe)

/-! ## Helper lemmas -/

theorem toList_ne_nil (q : String) (hq : q ≠ "") : q.toList ≠ [] := by
  intro h
  apply hq
  cases q with
  | mk data =>
    cases data with
    | nil => rfl
    | cons c cs => cases h

theorem toList_append (a b : String) : (a ++ b).toList = a.toList ++ b.toList :=
  String.data_append a b

/-- The sweep loop computes exactly the filter of the deletion condition:
the count of matching entries and the non-matching entries, in order. -/
theorem cleanupEntries_eq_filter (config : DatabaseConfig) (cutoff : Int)
    (l : List FileEntry) :
    cleanupEntries config cutoff l =
      ((l.filter (shouldDelete config cutoff)).length,
       l.filter (fun e => !shouldDelete config cutoff e)) := by
  induction l with
  | nil => rfl
  | cons e rest ih =>
    simp only [cleanupEntries, ih, List.filter_cons]
    cases h : shouldDelete config cutoff e <;> simp [h]

/-- The batch loop partitions the targets: per-target success pairs in
order on the left, per-target formatted failure messages in order on the
right. -/
theorem backupAllLoop_eq_filterMap (dir : String)
    (targets : List (DatabaseConfig × BackupEnv)) :
    backupAllLoop dir targets =
      (targets.filterMap (fun t =>
         match backup_database t.2 dir t.1 with
         | .ok p => some (t.1.name, p)
         | .error _ => none),
       targets.filterMap (fun t =>
         match backup_database t.2 dir t.1 with
         | .ok _ => none
         | .error e => some ("Failed to backup " ++ t.1.name ++ ": " ++ e.display))) := by
  induction targets with
  | nil => rfl
  | cons t rest ih =>
    obtain ⟨config, env⟩ := t
    simp only [backupAllLoop, ih, List.filterMap_cons]
    cases backup_database env dir config <;> simp

theorem backupAllLoop_length (dir : String)
    (targets : List (DatabaseConfig × BackupEnv)) :
    (backupAllLoop dir targets).1.length + (backupAllLoop dir targets).2.length =
      targets.length := by
  induction targets with
  | nil => rfl
  | cons t rest ih =>
    obtain ⟨config, env⟩ := t
    simp only [backupAllLoop]
    cases backup_database env dir config <;> simp <;> omega

theorem backupAllLoop_append (dir : String)
    (l₁ l₂ : List (DatabaseConfig × BackupEnv)) :
    backupAllLoop dir (l₁ ++ l₂) =
      ((backupAllLoop dir l₁).1 ++ (backupAllLoop dir l₂).1,
       (backupAllLoop dir l₁).2 ++ (backupAllLoop dir l₂).2) := by
  induction l₁ with
  | nil => rfl
  | cons t rest ih =>
    obtain ⟨config, env⟩ := t
    simp only [List.cons_append, backupAllLoop]
    cases backup_database env dir config <;> simp [ih]

/-- Catalog selection as filter-then-map: the kept filenames are the names
of the regular-file entries that pass the (optional) substring filter. -/
theorem filterMap_keepEntry (f : Option String) (l : List FileEntry) :
    l.filterMap (keepEntry f) =
      (l.filter (fun e => e.isFile &&
         match f with
         | some s => strContains e.name s
         | none => true)).map (fun e => e.name) := by
  induction l with
  | nil => rfl
  | cons e rest ih =>
    simp only [List.filterMap_cons, keepEntry, List.filter_cons]
    cases hf : e.isFile
    · simpa using ih
    · cases f with
      | none => simpa using ih
      | some s => cases hs : strContains e.name s <;> simpa [hs] using ih

/-- What `is_container_running` sees in the modelled `docker ps` stdout:
for a nonempty query, the query occurs in the newline-joined filtered name
list exactly when some running container's name contains it. -/
theorem strContains_dockerPs (running : List String) (q : String) (hq : q ≠ "") :
    strContains (dockerPsNamesOutput running q) q =
      running.any (fun n => strContains n q) := by
  unfold dockerPsNamesOutput
  induction running with
  | nil =>
    simp only [List.filter_nil, joinLines, List.any_nil]
    have h := toList_ne_nil q hq
    simp only [strContains, subOccurs]
    cases hl : q.toList with
    | nil => exact absurd hl h
    | cons c cs => rfl
  | cons n rest ih =>
    simp only [List.filter_cons, List.any_cons]
    cases hn : strContains n q
    · simpa [hn] using ih
    · simp only [if_pos rfl, Bool.true_or]
      apply (strContains_iff _ _).mpr
      have h1 : q.toList <:+: n.toList := (strContains_iff _ _).mp hn
      have h2 : n.toList <+:
          (n ++ "\n" ++ joinLines (rest.filter (fun m => strContains m q))).toList := by
        rw [toList_append, toList_append, List.append_assoc]
        exact List.prefix_append _ _
      exact h1.trans h2.isInfix

theorem digitChar_isDigit (n : Nat) : (digitChar n).isDigit = true := by
  have h : n % 10 < 10 := Nat.mod_lt _ (by norm_num)
  unfold digitChar
  set m := n % 10 with hm
  interval_cases m <;> decide

/-- The character decomposition of a formatted timestamp. -/
theorem formatTimestamp_toList (t : UtcTime) :
    (formatTimestamp t).toList =
      [digitChar (t.year / 1000), digitChar (t.year / 100), digitChar (t.year / 10),
       digitChar t.year, digitChar (t.month / 10), digitChar t.month,
       digitChar (t.day / 10), digitChar t.day, '_',
       digitChar (t.hour / 10), digitChar t.hour, digitChar (t.minute / 10),
       digitChar t.minute, digitChar (t.second / 10), digitChar t.second] := rfl

/-! ## Concrete fixtures (mirroring the source's own unit-test data) -/

/-- The `DatabaseConfig` the source's tests build
(`create_test_database_config`). -/
def exCfg : DatabaseConfig :=
  ⟨"Test Client", "test_database", "http://localhost:8069", "test_container",
   "admin", "zip", "/tmp/backups", 30⟩

/-- A Docker world in which every command spawns, runs and succeeds, and
the liveness query sees `test_container` running. -/
def exDockerOk : DockerEnv :=
  { ps := .ran true "test_container\n" "", mkdirCmd := .ran true "" "",
    curlCmd := .ran true "" "", checkCmd := .ran true "" "",
    cpCmd := .ran true "" "", rmCmd := .ran true "" "",
    now := ⟨2024, 1, 1, 12, 0, 0⟩ }

/-- Fully healthy environment: host root present, all Docker steps
succeed. -/
def exEnvOk : BackupEnv :=
  { hostDirPresent := true, createDir := none, docker := exDockerOk }

/-- Healthy except that the `docker exec rm -f` cleanup command cannot be
spawned at all. -/
def rmSpawnFailEnv : BackupEnv :=
  { hostDirPresent := true, createDir := none,
    docker := { exDockerOk with rmCmd := .spawnErr "No such file or directory" } }

/-- Healthy except that the cleanup command runs and exits with a
failure status. -/
def rmExitFailEnv : BackupEnv :=
  { hostDirPresent := true, createDir := none,
    docker := { exDockerOk with rmCmd := .ran false "" "rm: cannot remove" } }

/-- The liveness query runs fine but reports no matching container. -/
def notRunningEnv : BackupEnv :=
  { hostDirPresent := true, createDir := none,
    docker := { exDockerOk with ps := .ran true "" "" } }

/-- The host backup root is absent and cannot be created. -/
def hostDirFailEnv : BackupEnv :=
  { hostDirPresent := false, createDir := some "denied", docker := exDockerOk }

/-- Healthy except that the remote `curl` backup trigger exits with a
failure status. -/
def curlFailEnv : BackupEnv :=
  { hostDirPresent := true, createDir := none,
    docker := { exDockerOk with curlCmd := .ran false "" "curl: (7) connection refused" } }

/-- Every error `is_container_running` produces is a `Docker` error. -/
theorem is_container_running_error_docker (ps : CmdOutcome) (name : String)
    (e : BackupError) (h : is_container_running ps name = .error e) :
    ∃ m, e = BackupError.Docker m := by
  rcases ps with m | ⟨ok, o, s⟩
  · simp only [is_container_running, Except.error.injEq] at h
    exact ⟨_, h.symm⟩
  · cases ok <;> simp [is_container_running] at h
    exact ⟨_, h.symm⟩

/-- Every error `execute_backup` produces is a `Docker` error. -/
theorem execute_backup_error_docker (env : DockerEnv) (config : DatabaseConfig)
    (e : BackupError) (h : execute_backup env config = .error e) :
    ∃ m, e = BackupError.Docker m := by
  obtain ⟨ps, mk, cu, ck, cp, rm, now⟩ := env
  rcases ps with m | ⟨pok, po, pe⟩
  · simp [execute_backup, is_container_running] at h
    exact ⟨_, h.symm⟩
  · cases pok
    · simp [execute_backup, is_container_running] at h
      exact ⟨_, h.symm⟩
    · cases hrun : strContains po config.container_name
      · simp [execute_backup, is_container_running, hrun] at h
        exact ⟨_, h.symm⟩
      · rcases mk with m | ⟨mok, mo, ms⟩
        · simp [execute_backup, is_container_running, hrun] at h
          exact ⟨_, h.symm⟩
        · cases mok
          · simp [execute_backup, is_container_running, hrun] at h
            exact ⟨_, h.symm⟩
          · rcases cu with m | ⟨cok, co, cs⟩
            · simp [execute_backup, is_container_running, hrun] at h
              exact ⟨_, h.symm⟩
            · cases cok
              · simp [execute_backup, is_container_running, hrun] at h
                exact ⟨_, h.symm⟩
              · rcases ck with m | ⟨kok, ko, ks⟩
                · simp [execute_backup, is_container_running, hrun] at h
                  exact ⟨_, h.symm⟩
                · cases kok
                  · simp [execute_backup, is_container_running, hrun] at h
                    exact ⟨_, h.symm⟩
                  · simp [execute_backup, is_container_running, hrun] at h

/-- Every error `copy_backup_to_host` produces is a `Docker` error. -/
theorem copy_backup_to_host_error_docker (cp : CmdOutcome) (config : DatabaseConfig)
    (cpath hpath : String) (e : BackupError)
    (h : copy_backup_to_host cp config cpath hpath = .error e) :
    ∃ m, e = BackupError.Docker m := by
  rcases cp with m | ⟨ok, o, s⟩
  · simp [copy_backup_to_host] at h
    exact ⟨_, h.symm⟩
  · cases ok <;> simp [copy_backup_to_host] at h
    exact ⟨_, h.symm⟩

/-! ## Claim theorems -/

/-- C1 (amended): remote cleanup is best-effort only for removal commands
that run and report failure.  When the `docker exec rm -f` command runs but
exits unsuccessfully, the failure is only logged and an otherwise-successful
backup still returns success with the host artifact path (and at gateway
level `cleanup_container_backup` returns `Ok`); but when the removal
command cannot be issued at all, that error is propagated and the backup
fails. -/
theorem remote_cleanup_best_effort_amended (config : DatabaseConfig)
    (dir p co ce : String) (env : BackupEnv)
    (hens : ensure_backup_directory env = .ok ())
    (hexec : execute_backup env.docker config = .ok p)
    (hcp : env.docker.cpCmd = CmdOutcome.ran true co ce) :
    (∀ ro rs, env.docker.rmCmd = CmdOutcome.ran false ro rs →
       backup_database env dir config = .ok (dir ++ "/" ++ lastSegment p))
  ∧ (∀ m, env.docker.rmCmd = CmdOutcome.spawnErr m →
       backup_database env dir config =
         .error (BackupError.Docker ("Failed to cleanup backup file: " ++ m)))
  ∧ (∀ ro rs path, cleanup_container_backup (CmdOutcome.ran false ro rs) config path =
       .ok ()) := by
  refine ⟨?_, ?_, fun ro rs path => rfl⟩
  · intro ro rs hrm
    simp [backup_database, hens, hexec, copy_backup_to_host, hcp, hrm,
      cleanup_container_backup]
  · intro m hrm
    simp [backup_database, hens, hexec, copy_backup_to_host, hcp, hrm,
      cleanup_container_backup]

/-- C1 witness: with a healthy pipeline and the cleanup command exiting
unsuccessfully, the backup still succeeds with the host artifact path. -/
theorem remote_cleanup_best_effort_amended_witness :
    backup_database rmExitFailEnv "./backups" exCfg =
      .ok "./backups/backup_test_database_20240101_120000.zip" :=
  (remote_cleanup_best_effort_amended exCfg "./backups"
      "/tmp/backups/backup_test_database_20240101_120000.zip" "" "" rmExitFailEnv
      rfl rfl rfl).1 "" "rm: cannot remove" rfl

/-- C1 counterexample: with every other step healthy, a spawn failure of
the removal command makes `backup_database` return an error, not success —
refuting the claim that every remove-remote failure (including the
inability to issue the command at all) is never propagated. -/
theorem remote_cleanup_spawn_failure_counterexample :
    backup_database rmSpawnFailEnv "./backups" exCfg =
      .error (BackupError.Docker
        "Failed to cleanup backup file: No such file or directory")
  ∧ (backup_database rmSpawnFailEnv "./backups" exCfg).isOk = false :=
  ⟨rfl, rfl⟩

/-- C2: the batch run partitions its targets in order: successes are the
`(name, hostPath)` pairs of the targets whose backup succeeded, failure
messages are `"Failed to backup <name>: <cause>"` for the targets whose
backup failed, the two lengths add up to the number of targets (so there
are N−M successes and M failures), and the run distributes over list
append, so no target's failure prevents subsequent targets from being
attempted. -/
theorem backup_all_partition (dir : String)
    (targets : List (DatabaseConfig × BackupEnv)) :
    backup_all_databases dir targets =
      .ok (targets.filterMap (fun t =>
             match backup_database t.2 dir t.1 with
             | .ok p => some (t.1.name, p)
             | .error _ => none),
           targets.filterMap (fun t =>
             match backup_database t.2 dir t.1 with
             | .ok _ => none
             | .error e => some ("Failed to backup " ++ t.1.name ++ ": " ++ e.display)))
  ∧ (backupAllLoop dir targets).1.length + (backupAllLoop dir targets).2.length =
      targets.length
  ∧ (backupAllLoop dir targets).1.length =
      targets.length - (backupAllLoop dir targets).2.length
  ∧ ∀ l₁ l₂, backupAllLoop dir (l₁ ++ l₂) =
      ((backupAllLoop dir l₁).1 ++ (backupAllLoop dir l₂).1,
       (backupAllLoop dir l₁).2 ++ (backupAllLoop dir l₂).2) := by
  refine ⟨?_, backupAllLoop_length dir targets, ?_, backupAllLoop_append dir⟩
  · unfold backup_all_databases
    rw [backupAllLoop_eq_filterMap]
  · have := backupAllLoop_length dir targets
    omega

/-- C3: on an existing host root, the sweep deletes exactly the regular
files whose name contains the target's `database_name` as a substring and
whose modification time is strictly earlier than `now` minus the retention
window, returns their count, and leaves the other entries unchanged in
order. -/
theorem cleanup_deletes_exactly_expired (config : DatabaseConfig) (dir : HostDir)
    (now : Int) (h : dir.present = true) :
    cleanup_old_backups config dir now =
      .ok ((dir.entries.filter (fun e =>
              e.isFile && strContains e.name config.database_name &&
                decide (e.mtime < now - (config.retention_days : Int) * secondsPerDay))).length,
           { present := true,
             entries := dir.entries.filter (fun e =>
               !(e.isFile && strContains e.name config.database_name &&
                  decide (e.mtime < now - (config.retention_days : Int) * secondsPerDay))) }) := by
  unfold cleanup_old_backups
  rw [h]
  simp only [Bool.not_true, Bool.false_eq_true, if_false, cleanupEntries_eq_filter]
  rfl

/-- C3 witness: with cutoff 100 (retention 30 days, now = 30·86400 + 100),
a matching file modified at 50 is deleted and one modified at 150 is kept;
count is 1. -/
theorem cleanup_deletes_exactly_expired_witness :
    cleanup_old_backups exCfg
        ⟨true, [⟨"backup_test_database_a.zip", true, 50⟩,
                ⟨"backup_test_database_b.zip", true, 150⟩]⟩ (2592100 : Int) =
      .ok (1, ⟨true, [⟨"backup_test_database_b.zip", true, 150⟩]⟩) := by
  rw [cleanup_deletes_exactly_expired exCfg
    ⟨true, [⟨"backup_test_database_a.zip", true, 50⟩,
            ⟨"backup_test_database_b.zip", true, 150⟩]⟩ (2592100 : Int) rfl]
  rfl

/-- C4: `backup_database` fails with a `FileSystem` error when the host
backup root cannot be created; fails with a `Docker` error when the
container is not running or when the remote backup trigger or the transfer
to the host fails (every such error is a `Docker` error); and when the host
root is ensured, the trigger and the transfer succeed and the removal
command can at least be spawned, it returns the host artifact path derived
from the container path's last segment. -/
theorem backup_database_contract (config : DatabaseConfig) (dir : String)
    (env : BackupEnv) :
    (∀ m, env.hostDirPresent = false → env.createDir = some m →
       backup_database env dir config =
         .error (BackupError.FileSystem ("Failed to create backup directory: " ++ m)))
  ∧ (∀ psOut psErr, ensure_backup_directory env = .ok () →
       env.docker.ps = CmdOutcome.ran true psOut psErr →
       strContains psOut config.container_name = false →
       backup_database env dir config =
         .error (BackupError.Docker
           ("Container '" ++ config.container_name ++ "' is not running")))
  ∧ (∀ e, ensure_backup_directory env = .ok () →
       execute_backup env.docker config = .error e →
       backup_database env dir config = .error e ∧ ∃ m, e = BackupError.Docker m)
  ∧ (∀ p e, ensure_backup_directory env = .ok () →
       execute_backup env.docker config = .ok p →
       copy_backup_to_host env.docker.cpCmd config p dir = .error e →
       backup_database env dir config = .error e ∧ ∃ m, e = BackupError.Docker m)
  ∧ (∀ p cpOut cpErr rb rOut rErr, ensure_backup_directory env = .ok () →
       execute_backup env.docker config = .ok p →
       env.docker.cpCmd = CmdOutcome.ran true cpOut cpErr →
       env.docker.rmCmd = CmdOutcome.ran rb rOut rErr →
       backup_database env dir config = .ok (dir ++ "/" ++ lastSegment p)) := by
  refine ⟨?_, ?_, ?_, ?_, ?_⟩
  · intro m hpres hcd
    simp [backup_database, ensure_backup_directory, hpres, hcd]
  · intro psOut psErr hens hps hlive
    simp [backup_database, hens, execute_backup, is_container_running, hps, hlive]
  · intro e hens hexec
    refine ⟨?_, execute_backup_error_docker _ _ _ hexec⟩
    simp [backup_database, hens, hexec]
  · intro p e hens hexec hcp
    refine ⟨?_, copy_backup_to_host_error_docker _ _ _ _ _ hcp⟩
    simp [backup_database, hens, hexec, hcp]
  · intro p cpOut cpErr rb rOut rErr hens hexec hcp hrm
    simp [backup_database, hens, hexec, copy_backup_to_host, hcp, hrm,
      cleanup_container_backup]

/-- C4 witness: concrete instances of the contract — host-root creation
failure yields a `FileSystem` error, a non-running container yields the
`Docker` liveness error, a failed remote trigger yields a `Docker` error,
and the fully healthy pipeline returns the host artifact path. -/
theorem backup_database_contract_witness :
    backup_database hostDirFailEnv "./backups" exCfg =
      .error (BackupError.FileSystem "Failed to create backup directory: denied")
  ∧ backup_database notRunningEnv "./backups" exCfg =
      .error (BackupError.Docker "Container 'test_container' is not running")
  ∧ backup_database curlFailEnv "./backups" exCfg =
      .error (BackupError.Docker "Backup command failed: curl: (7) connection refused")
  ∧ backup_database exEnvOk "./backups" exCfg =
      .ok "./backups/backup_test_database_20240101_120000.zip" := by
  refine ⟨?_, ?_, ?_, ?_⟩
  · exact (backup_database_contract exCfg "./backups" hostDirFailEnv).1 "denied" rfl rfl
  · exact (backup_database_contract exCfg "./backups" notRunningEnv).2.1 "" ""
      rfl rfl (by decide)
  · exact ((backup_database_contract exCfg "./backups" curlFailEnv).2.2.1
      (BackupError.Docker "Backup command failed: curl: (7) connection refused")
      rfl rfl).1
  · exact (backup_database_contract exCfg "./backups" exEnvOk).2.2.2.2
      "/tmp/backups/backup_test_database_20240101_120000.zip" "" "" true "" ""
      rfl rfl rfl rfl

/-- C5: the catalog listing returns `Ok` for every input (empty when the
host root is absent), and its result is a sorted (lexicographic ascending)
permutation of the names of the regular-file entries that pass the optional
substring filter. -/
theorem list_backups_sorted_filtered (dir : HostDir) (dbFilter : Option String) :
    ∃ l, list_backups dir dbFilter = .ok l
      ∧ List.Pairwise (fun a b => strLe a b = true) l
      ∧ l.Perm (if dir.present then
            (dir.entries.filter (fun e => e.isFile &&
               match dbFilter with
               | some s => strContains e.name s
               | none => true)).map (fun e => e.name)
          else []) := by
  cases hp : dir.present
  · refine ⟨[], ?_, List.Pairwise.nil, ?_⟩
    · simp [list_backups, hp]
    · simp
  · refine ⟨(dir.entries.filterMap (keepEntry dbFilter)).mergeSort strLe, ?_, ?_, ?_⟩
    · simp [list_backups, hp]
    · exact List.sorted_mergeSort strLe_trans strLe_total _
    · rw [if_pos rfl]
      rw [← filterMap_keepEntry]
      exact List.mergeSort_perm _ _

/-- C6: when the host backup root does not exist, the sweep returns 0 and
does not fail (and touches nothing). -/
theorem cleanup_missing_root_returns_zero (config : DatabaseConfig)
    (entries : List FileEntry) (now : Int) :
    cleanup_old_backups config ⟨false, entries⟩ now = .ok (0, ⟨false, entries⟩) := rfl

/-- C7: with a healthy container pipeline, the remote artifact path built
by the backup trigger is exactly
`<output_path>/backup_<subject>_<timestamp>.<format>` where the timestamp
has the sortable second-resolution shape `YYYYMMDD_HHMMSS` (eight digits,
an underscore, six digits); in particular subject `test_database`,
timestamp `20240101_120000`, format `zip` yield
`backup_test_database_20240101_120000.zip`. -/
theorem artifact_filename_format (config : DatabaseConfig) (env : DockerEnv)
    (psOut psErr mo ms co cs ko ks : String)
    (hps : env.ps = CmdOutcome.ran true psOut psErr)
    (hlive : strContains psOut config.container_name = true)
    (hmk : env.mkdirCmd = CmdOutcome.ran true mo ms)
    (hcu : env.curlCmd = CmdOutcome.ran true co cs)
    (hck : env.checkCmd = CmdOutcome.ran true ko ks)
    (hyear : env.now.year ≤ 9999) (hmon : env.now.month ≤ 12)
    (hday : env.now.day ≤ 31) (hhour : env.now.hour ≤ 23)
    (hmin : env.now.minute ≤ 59) (hsec : env.now.second ≤ 59) :
    execute_backup env config =
      .ok (config.output_path ++ "/" ++
        ("backup_" ++ config.database_name ++ "_" ++ formatTimestamp env.now ++ "." ++
          config.backup_format))
  ∧ (∃ l1 l2 : List Char,
      (formatTimestamp env.now).toList = l1 ++ '_' :: l2 ∧
      l1.length = 8 ∧ l2.length = 6 ∧
      (∀ c ∈ l1, c.isDigit = true) ∧ (∀ c ∈ l2, c.isDigit = true))
  ∧ formatTimestamp ⟨2024, 1, 1, 12, 0, 0⟩ = "20240101_120000"
  ∧ backupFilename exCfg "20240101_120000" = "backup_test_database_20240101_120000.zip" := by
  refine ⟨?_, ?_, by decide, by decide⟩
  · simp [execute_backup, is_container_running, hps, hlive, hmk, hcu, hck, backupFilename]
  · refine ⟨[digitChar (env.now.year / 1000), digitChar (env.now.year / 100),
       digitChar (env.now.year / 10), digitChar env.now.year,
       digitChar (env.now.month / 10), digitChar env.now.month,
       digitChar (env.now.day / 10), digitChar env.now.day],
      [digitChar (env.now.hour / 10), digitChar env.now.hour,
       digitChar (env.now.minute / 10), digitChar env.now.minute,
       digitChar (env.now.second / 10), digitChar env.now.second], rfl, rfl, rfl, ?_, ?_⟩
    · intro c hc
      simp only [List.mem_cons, List.not_mem_nil, or_false] at hc
      rcases hc with rfl | rfl | rfl | rfl | rfl | rfl | rfl | rfl <;>
        exact digitChar_isDigit _
    · intro c hc
      simp only [List.mem_cons, List.not_mem_nil, or_false] at hc
      rcases hc with rfl | rfl | rfl | rfl | rfl | rfl <;> exact digitChar_isDigit _

/-- C7 witness: the healthy fixture environment produces exactly
`/tmp/backups/backup_test_database_20240101_120000.zip`. -/
theorem artifact_filename_format_witness :
    execute_backup exDockerOk exCfg =
      .ok "/tmp/backups/backup_test_database_20240101_120000.zip" :=
  (artifact_filename_format exCfg exDockerOk "test_container\n" "" "" "" "" "" "" ""
    rfl (by decide) rfl rfl rfl (by decide) (by decide) (by decide) (by decide)
    (by decide) (by decide)).1

/-- C8: the sweep is idempotent: whatever a first run returned, running it
again on the resulting directory with the same clock deletes nothing and
returns 0. -/
theorem cleanup_idempotent (config : DatabaseConfig) (dir : HostDir) (now : Int)
    (n : Nat) (dir' : HostDir)
    (h : cleanup_old_backups config dir now = .ok (n, dir')) :
    cleanup_old_backups config dir' now = .ok (0, dir') := by
  rcases dir with ⟨present, entries⟩
  cases present
  · have h0 : cleanup_old_backups config ⟨false, entries⟩ now =
        .ok (0, ⟨false, entries⟩) := rfl
    rw [h0] at h
    injection h with h'
    injection h' with hn hdir
    subst hdir
    rfl
  · have h0 : cleanup_old_backups config ⟨true, entries⟩ now =
        .ok ((entries.filter (shouldDelete config
                (now - (config.retention_days : Int) * secondsPerDay))).length,
             ⟨true, entries.filter (fun e => !shouldDelete config
                (now - (config.retention_days : Int) * secondsPerDay) e)⟩) := by
      simp [cleanup_old_backups, cleanupEntries_eq_filter]
    rw [h0] at h
    injection h with h'
    injection h' with hn hdir
    subst hdir
    simp [cleanup_old_backups, cleanupEntries_eq_filter, List.filter_filter,
      Bool.and_not_self, Bool.and_self]

/-- C8 witness: running the sweep on the directory left by the first run
of the C3 scenario deletes nothing. -/
theorem cleanup_idempotent_witness :
    cleanup_old_backups exCfg ⟨true, [⟨"backup_test_database_b.zip", true, 150⟩]⟩
        (2592100 : Int) =
      .ok (0, ⟨true, [⟨"backup_test_database_b.zip", true, 150⟩]⟩) :=
  cleanup_idempotent exCfg
    ⟨true, [⟨"backup_test_database_a.zip", true, 50⟩,
            ⟨"backup_test_database_b.zip", true, 150⟩]⟩
    2592100 1 ⟨true, [⟨"backup_test_database_b.zip", true, 150⟩]⟩ (by rfl)

/-- C9: the liveness check matches by substring, not exact equality: for a
nonempty queried identifier, `is_container_running` on the modelled
`docker ps` output answers `true` exactly when some running container's
name contains the query as a substring. -/
theorem is_container_running_substring (running : List String) (q serr : String)
    (hq : q ≠ "") :
    is_container_running (CmdOutcome.ran true (dockerPsNamesOutput running q) serr) q =
      .ok (running.any (fun n => strContains n q)) := by
  simp only [is_container_running, Bool.not_true]
  rw [if_neg (by simp)]
  rw [strContains_dockerPs running q hq]

/-- C9 witness: querying `db` while only a container named `db2` runs
answers `true`. -/
theorem is_container_running_substring_witness :
    is_container_running (CmdOutcome.ran true (dockerPsNamesOutput ["db2"] "db") "")
        "db" = .ok true := by
  rw [is_container_running_substring ["db2"] "db" "" (by decide)]
  rfl

/-- C10: the batch run has no error path: it returns `Ok` for every target
list, and even when every per-target backup fails it returns `Ok` with an
empty successes list and one failure message per target. -/
theorem backup_all_never_errs (dir : String)
    (targets : List (DatabaseConfig × BackupEnv)) :
    (∃ v, backup_all_databases dir targets = .ok v)
  ∧ ((∀ t ∈ targets, ∀ p, backup_database t.2 dir t.1 ≠ .ok p) →
      ∃ msgs, backup_all_databases dir targets = .ok ([], msgs) ∧
        msgs.length = targets.length) := by
  constructor
  · exact ⟨_, rfl⟩
  · intro hall
    have hfst : ∀ l : List (DatabaseConfig × BackupEnv),
        (∀ t ∈ l, ∀ p, backup_database t.2 dir t.1 ≠ .ok p) →
        (backupAllLoop dir l).1 = [] ∧ (backupAllLoop dir l).2.length = l.length := by
      intro l
      induction l with
      | nil => intro _; exact ⟨rfl, rfl⟩
      | cons t rest ih =>
        intro hl
        obtain ⟨config, env⟩ := t
        have htail := ih (fun t ht p => hl t (List.mem_cons_of_mem _ ht) p)
        simp only [backupAllLoop]
        rcases hb : backup_database env dir config with e | p
        · simp [htail.1, htail.2]
        · exact absurd hb (hl (config, env) (List.mem_cons_self _ _) p)
    obtain ⟨h1, h2⟩ := hfst targets hall
    refine ⟨(backupAllLoop dir targets).2, ?_, h2⟩
    unfold backup_all_databases
    rw [← h1]

/-- C10 witness: a batch of one target whose container is not running
still returns `Ok` with no successes and one failure message. -/
theorem backup_all_never_errs_witness :
    ∃ msgs, backup_all_databases "./backups" [(exCfg, notRunningEnv)] =
        .ok ([], msgs) ∧ msgs.length = 1 :=
  (backup_all_never_errs "./backups" [(exCfg, notRunningEnv)]).2 (by
    intro t ht p hok
    rw [List.mem_singleton] at ht
    subst ht
    have h2 : backup_database (exCfg, notRunningEnv).2 "./backups"
        (exCfg, notRunningEnv).1 =
        .error (BackupError.Docker "Container 'test_container' is not running") := rfl
    rw [h2] at hok
    exact Except.noConfusion hok)

end OdooBackup
